import Mathlib

/-!
Shallow embedding of the metrics-and-alerting core of
src/dashboard_metricas.py (a Streamlit trading-metrics dashboard).

Numeric cells are modelled as exact rationals.  A pandas/numpy value that
is NaN or infinite (an empty-subset mean, a division by zero) is modelled
as `none : Option ℚ`; IEEE NaN propagation through arithmetic is modelled
by `Option` propagation, and a float comparison `NaN < c`, which is
`False` in Python, is modelled by matching on the `Option` and treating
`none` as "condition does not hold".  Timestamps (`fecha_salida`) are
modelled as naturals.
-/

namespace Metricas

/-- One cell of an optional process-control column as pandas sees it after
reading the Excel file: missing (NaN), a boolean, or a non-boolean numeric
value. -/
inductive Cell where
  | missing : Cell
  | booleano : Bool → Cell
  | numero : ℚ → Cell
deriving DecidableEq, Repr

/-- One row of the validated trade table.  Only the columns the core
computations read are modelled; pass-through columns (id_operacion,
fecha_entrada, activo) play no role in any claim.  `none` in an optional
column models a NaN cell (for `tamanio`, also a non-numeric cell after
pandas to_numeric coercion with errors="coerce"). -/
structure Trade where
  fecha_salida : ℕ
  lado : String
  precio_entrada : ℚ
  precio_salida : ℚ
  probabilidad_asignada : ℚ
  tamanio : Option ℚ := none
  slippage_estimado_pct : Option ℚ := none
  slippage_real_pct : Option ℚ := none
deriving DecidableEq, Repr

/-- The validated batch.  Besides the rows it records which optional
columns exist in the dataframe at all, since pandas distinguishes an
absent column (attribute access raises) from a present column full of
NaN.  `slipColsPresent` is true when both slippage_estimado_pct and
slippage_real_pct columns exist; each adherence field is `some cells`
when that control column exists. -/
structure Batch where
  trades : List Trade
  slipColsPresent : Bool := true
  regla_riesgo_ok : Option (List Cell) := none
  regla_salida_ok : Option (List Cell) := none
  tesis_documentada : Option (List Cell) := none
  proceso_seguido : Option (List Cell) := none
deriving DecidableEq, Repr

/-- Python str.lower: each character mapped to its lowercase form (the
same character function String.toLower maps, stated over the character
list so that it evaluates by reduction). -/
def toMinusculas (s : String) : String := ⟨s.data.map Char.toLower⟩

/-- Return of one trade in exact arithmetic, line 56-59 of the source:
the long formula when str(lado).lower() equals "largo", otherwise the
short formula.  Faithful to the float code whenever precio_entrada is
nonzero. -/
def retorno (t : Trade) : ℚ :=
  if toMinusculas t.lado = "largo" then
    (t.precio_salida - t.precio_entrada) / t.precio_entrada
  else
    (t.precio_entrada - t.precio_salida) / t.precio_entrada

/-- calcular_retorno as the float code behaves: at precio_entrada = 0 the
division produces a non-finite float (±inf or NaN) with no exception and
no error value, modelled as `none`; otherwise the finite return. -/
def calcular_retorno (t : Trade) : Option ℚ :=
  if t.precio_entrada = 0 then none else some (retorno t)

/-- df["resultado"] = (retorno_realizado > 0).astype(int), line 62: the
win flag as the 0/1 integer the source stores. -/
def resultado (t : Trade) : ℚ :=
  if 0 < retorno t then 1 else 0

/-- pandas Series.mean: NaN (`none`) on an empty series. -/
def mean (l : List ℚ) : Option ℚ :=
  if l.isEmpty then none else some (l.sum / l.length)

def retornos (b : Batch) : List ℚ := b.trades.map retorno

def resultados (b : Batch) : List ℚ := b.trades.map resultado

/-- tasa_exito = df["resultado"].mean(), line 81. -/
def tasa_exito (b : Batch) : Option ℚ := mean (resultados b)

/-- gan_media = retornos[retornos > 0].mean(), line 82. -/
def gan_media (b : Batch) : Option ℚ :=
  mean ((retornos b).filter (fun r => 0 < r))

/-- per_media = retornos[retornos <= 0].mean(), line 83. -/
def per_media (b : Batch) : Option ℚ :=
  mean ((retornos b).filter (fun r => r ≤ 0))

/-- expectativa = tasa_exito * gan_media + (1 - tasa_exito) * per_media,
line 84.  In floats every operand that is NaN makes the result NaN (in
particular 0 * NaN = NaN), so the result is defined exactly when all
three operands are. -/
def expectativa (b : Batch) : Option ℚ :=
  match tasa_exito b, gan_media b, per_media b with
  | some w, some g, some l => some (w * g + (1 - w) * l)
  | _, _, _ => none

/-- Series.clip(0,1), line 65. -/
def clip01 (q : ℚ) : ℚ := max 0 (min 1 q)

/-- Bin assignment of scipy.stats.binned_statistic with edges
np.linspace(0,1,6): half-open bins [k/5,(k+1)/5), except the last bin
which also contains the right edge 1.  Input is the clipped probability,
so it lies in [0,1]. -/
def binIndex (q : ℚ) : Fin 5 :=
  if q < 1/5 then 0
  else if q < 2/5 then 1
  else if q < 3/5 then 2
  else if q < 4/5 then 3
  else 4

/-- Trades falling in bin i, in original order. -/
def binTrades (b : Batch) (i : Fin 5) : List Trade :=
  b.trades.filter (fun t => binIndex (clip01 t.probabilidad_asignada) = i)

/-- frecuencia_real, line 68: per-bin mean of resultado; NaN (`none`) on
an empty bin. -/
def frecuencia_real (b : Batch) (i : Fin 5) : Option ℚ :=
  mean ((binTrades b i).map resultado)

/-- centros = (bins[:-1] + bins[1:]) / 2, line 67. -/
def centros : List ℚ := [1/10, 3/10, 1/2, 7/10, 9/10]

/-- Effective size, line 70: pd.to_numeric with errors set to coerce over
df.get of the tamanio column, then .fillna(1) — the numeric value when
there is one, else 1. -/
def tamanioEf (t : Trade) : ℚ := t.tamanio.getD 1

/-- Weighted return per trade, retornos * tamanios, in original row
order. -/
def pesos (b : Batch) : List ℚ :=
  b.trades.map (fun t => retorno t * tamanioEf t)

def cumsumAux (acc : ℚ) : List ℚ → List ℚ
  | [] => []
  | x :: xs => (acc + x) :: cumsumAux (acc + x) xs

/-- Series.cumsum on a list of rationals. -/
def cumsum (l : List ℚ) : List ℚ := cumsumAux 0 l

/-- (retornos * tamanios).cumsum().values, line 71: running sums in the
ORIGINAL row order of the dataframe. -/
def equityVals (b : Batch) : List ℚ := cumsum (pesos b)

def insertNat (x : ℕ) : List ℕ → List ℕ
  | [] => [x]
  | y :: ys => if x ≤ y then x :: y :: ys else y :: insertNat x ys

/-- df["fecha_salida"].sort_values(): the exit timestamps in ascending
order. -/
def fechasOrdenadas (b : Batch) : List ℕ :=
  (b.trades.map Trade.fecha_salida).foldr insertNat []

/-- serie_equity, line 71: pd.Series(values, index=sorted dates) pairs
the i-th cumulative sum IN ORIGINAL ORDER with the i-th SORTED exit
date. -/
def serie_equity (b : Batch) : List (ℕ × ℚ) :=
  (fechasOrdenadas b).zip (equityVals b)

def insertTrade (x : Trade) : List Trade → List Trade
  | [] => [x]
  | y :: ys =>
      if x.fecha_salida ≤ y.fecha_salida then x :: y :: ys
      else y :: insertTrade x ys

/-- Stable sort of the trades by ascending fecha_salida (ties keep
original order). -/
def tradesOrdenados (b : Batch) : List Trade :=
  b.trades.foldr insertTrade []

/-- The equity sequence the spec describes (the comparison definition for
the refinement): sort the trades by exit time ascending FIRST, then take
running sums of the weighted returns in that order, paired with the exit
times. -/
def equitySpec (b : Batch) : List (ℕ × ℚ) :=
  ((tradesOrdenados b).map Trade.fecha_salida).zip
    (cumsum ((tradesOrdenados b).map (fun t => retorno t * tamanioEf t)))

def cummaxAux (m : ℚ) : List ℚ → List ℚ
  | [] => []
  | x :: xs => max m x :: cummaxAux (max m x) xs

/-- Series.cummax, line 162. -/
def cummax : List ℚ → List ℚ
  | [] => []
  | x :: xs => x :: cummaxAux x xs

/-- dd = (serie_equity - peak) / peak, line 163, on the equity values.
A zero running peak makes the float division non-finite (NaN for 0/0,
-inf otherwise) without raising, modelled as `none`. -/
def dd (b : Batch) : List (Option ℚ) :=
  List.zipWith
    (fun e p => if p = 0 then none else some ((e - p) / p))
    (equityVals b) (cummax (equityVals b))

/-- slip_df = df.dropna(subset=["slippage_estimado_pct",
"slippage_real_pct"]); slip_vals = real - estimado, lines 139-140.
When either column is absent from the dataframe, dropna(subset=...)
raises KeyError; otherwise rows with a NaN in either column are dropped
and the difference is taken in the remaining original order. -/
def slip_vals (b : Batch) : Except String (List ℚ) :=
  if b.slipColsPresent then
    Except.ok (b.trades.filterMap (fun t =>
      match t.slippage_estimado_pct, t.slippage_real_pct with
      | some e, some r => some (r - e)
      | _, _ => none))
  else
    Except.error "KeyError"

/-- The fixed recognized control-column names, in declaration order of
line 109. -/
def reconocidas : List String :=
  ["regla_riesgo_ok", "regla_salida_ok", "tesis_documentada", "proceso_seguido"]

/-- Column lookup: `some cells` when the named control column exists in
the dataframe. -/
def getCol (b : Batch) : String → Option (List Cell)
  | "regla_riesgo_ok" => b.regla_riesgo_ok
  | "regla_salida_ok" => b.regla_salida_ok
  | "tesis_documentada" => b.tesis_documentada
  | "proceso_seguido" => b.proceso_seguido
  | _ => none

/-- cols_bool = [c for c in [...] if c in df.columns], line 109: the
recognized columns actually present, with their cells, in declaration
order. -/
def cols_bool (b : Batch) : List (String × List Cell) :=
  reconocidas.filterMap (fun c => (getCol b c).map (fun l => (c, l)))

/-- Numeric value pandas uses for one cell of an object column when
averaging: NaN cells are skipped (skipna), True/False count as 1/0, a
numeric cell counts as its value. -/
def cellVal : Cell → Option ℚ
  | Cell.missing => none
  | Cell.booleano b => some (if b then 1 else 0)
  | Cell.numero q => some q

/-- df[c].mean() over a control column, line 111: NaN entries are
skipped, every other entry enters the mean at its numeric value; NaN
(`none`) when no entry remains. -/
def colMean (cells : List Cell) : Option ℚ :=
  mean (cells.filterMap cellVal)

/-- adher = {c: df[c].mean() for c in cols_bool}, line 111 (and again at
line 199): ordered mapping column name to compliance. -/
def adher (b : Batch) : List (String × Option ℚ) :=
  (cols_bool b).map (fun p => (p.1, colMean p.2))

/-- The per-column mean the spec describes (comparison definition for the
refinement): missing AND non-boolean entries are excluded, only boolean
cells enter the mean. -/
def colMeanSpec (cells : List Cell) : Option ℚ :=
  mean (cells.filterMap (fun c =>
    match c with
    | Cell.booleano b => some (if b then 1 else 0)
    | _ => none))

/-- The adherence mapping the spec describes, built with colMeanSpec. -/
def adherSpec (b : Batch) : List (String × Option ℚ) :=
  (cols_bool b).map (fun p => (p.1, colMeanSpec p.2))

/-- The alert messages of lines 197-203, abstracted from their rendered
strings: which rule fired, and for adherence on which column with which
compliance. -/
inductive AlertMsg where
  | calibracion : AlertMsg
  | adherencia : String → ℚ → AlertMsg
  | expectativaNegativa : AlertMsg
deriving DecidableEq, Repr

/-- One line of the alerts panel: st.warning for each alert, or the
single st.success("Sin alertas críticas"). -/
inductive Salida where
  | warning : AlertMsg → Salida
  | exito : Salida
deriving DecidableEq, Repr

/-- Line 197: the calibration rule appended first.  len(centros) >= 3
always holds (there are 5 centers) and centros[2] = 1/2; when the
middle-bin frequency is NaN the float comparison is False and nothing is
appended. -/
def alertaCalibracion (b : Batch) : List AlertMsg :=
  match frecuencia_real b 2 with
  | some f => if 3/20 < |f - 1/2| then [AlertMsg.calibracion] else []
  | none => []

/-- Lines 199-201: one adherence alert per present control column, in
declaration order, when its mean is below 0.7 (a NaN mean compares
False). -/
def alertasAdherencia (b : Batch) : List AlertMsg :=
  (adher b).filterMap (fun p =>
    match p.2 with
    | some c => if c < 7/10 then some (AlertMsg.adherencia p.1 c) else none
    | none => none)

/-- Lines 202-203: the negative-expectancy rule appended last (a NaN
expectancy compares False). -/
def alertaExpectativa (b : Batch) : List AlertMsg :=
  match expectativa b with
  | some e => if e < 0 then [AlertMsg.expectativaNegativa] else []
  | none => []

/-- alerts, lines 196-203, in the order the source appends them. -/
def alerts (b : Batch) : List AlertMsg :=
  alertaCalibracion b ++ alertasAdherencia b ++ alertaExpectativa b

/-- Lines 204-208: each alert as a warning, or the single success line
when no alert fired. -/
def salida (b : Batch) : List Salida :=
  if alerts b = [] then [Salida.exito] else (alerts b).map Salida.warning

/-- All entry prices nonzero: on such batches the exact-rational model
coincides with the float code (no division by zero anywhere in the
return computation). -/
def validPrices (b : Batch) : Prop :=
  ∀ t ∈ b.trades, t.precio_entrada ≠ 0

instance (b : Batch) : Decidable (validPrices b) :=
  List.decidableBAll _ b.trades

/-! Concrete batches used as inputs of the witnesses, counterexamples and
failing-input evaluations. -/

/-- Long trade closing second (day 2) with return 1/10. -/
def tGan : Trade :=
  { fecha_salida := 2, lado := "largo", precio_entrada := 1,
    precio_salida := 11/10, probabilidad_asignada := 1/2 }

/-- Long trade closing first (day 1) with return -1/20. -/
def tPer : Trade :=
  { fecha_salida := 1, lado := "largo", precio_entrada := 1,
    precio_salida := 19/20, probabilidad_asignada := 1/2 }

/-- Two trades whose dataframe order (tGan before tPer) is the reverse of
their exit-time order. -/
def bDesorden : Batch := { trades := [tGan, tPer] }

/-- A batch with a single losing trade (zero wins). -/
def bSinGanancias : Batch := { trades := [tPer] }

/-- The empty batch: zero trades after validation. -/
def bVacio : Batch := { trades := [] }

/-- Two losing long trades in exit order: returns -1/10 then -1/5, so the
running equity peak is negative from the start. -/
def bPerdidas : Batch :=
  { trades :=
      [{ fecha_salida := 1, lado := "largo", precio_entrada := 1,
         precio_salida := 9/10, probabilidad_asignada := 1/2 },
       { fecha_salida := 2, lado := "largo", precio_entrada := 1,
         precio_salida := 4/5, probabilidad_asignada := 1/2 }] }

/-- Three winning long trades with probability 1/2 each. -/
def bGanadoras : Batch :=
  { trades :=
      [{ fecha_salida := 1, lado := "largo", precio_entrada := 1,
         precio_salida := 2, probabilidad_asignada := 1/2 },
       { fecha_salida := 2, lado := "largo", precio_entrada := 1,
         precio_salida := 2, probabilidad_asignada := 1/2 },
       { fecha_salida := 3, lado := "largo", precio_entrada := 1,
         precio_salida := 2, probabilidad_asignada := 1/2 }] }

/-- Three trades with slippage cells: both present, one absent, both
present. -/
def bSlip : Batch :=
  { trades :=
      [{ fecha_salida := 1, lado := "largo", precio_entrada := 1,
         precio_salida := 1, probabilidad_asignada := 1/2,
         slippage_estimado_pct := some 2, slippage_real_pct := some 5 },
       { fecha_salida := 2, lado := "largo", precio_entrada := 1,
         precio_salida := 1, probabilidad_asignada := 1/2,
         slippage_estimado_pct := none, slippage_real_pct := some 1 },
       { fecha_salida := 3, lado := "largo", precio_entrada := 1,
         precio_salida := 1, probabilidad_asignada := 1/2,
         slippage_estimado_pct := some 4, slippage_real_pct := some 1 }] }

/-- A one-trade batch whose dataframe has no slippage columns at all. -/
def bSinColsSlip : Batch :=
  { trades :=
      [{ fecha_salida := 1, lado := "largo", precio_entrada := 1,
         precio_salida := 1, probabilidad_asignada := 1/2 }],
    slipColsPresent := false }

/-- A trade with zero entry price. -/
def tEntradaCero : Trade :=
  { fecha_salida := 1, lado := "largo", precio_entrada := 0,
    precio_salida := 10, probabilidad_asignada := 1/2 }

/-- An uppercase-side long trade, entry 100, exit 110. -/
def tLargo : Trade :=
  { fecha_salida := 1, lado := "Largo", precio_entrada := 100,
    precio_salida := 110, probabilidad_asignada := 1/2 }

/-- A batch whose only control column holds two booleans and one
non-boolean numeric cell. -/
def bControl : Batch :=
  { trades := [],
    regla_riesgo_ok :=
      some [Cell.booleano true, Cell.booleano false, Cell.numero 2] }

/-! Helper lemmas. -/

theorem mean_eq_none_iff (l : List ℚ) : mean l = none ↔ l = [] := by
  simp [mean, List.isEmpty_iff]

theorem mean_eq_some (l : List ℚ) (h : l ≠ []) :
    mean l = some (l.sum / l.length) := by
  simp [mean, List.isEmpty_iff, h]

theorem cumsumAux_length (a : ℚ) (l : List ℚ) :
    (cumsumAux a l).length = l.length := by
  induction l generalizing a with
  | nil => rfl
  | cons x xs ih => simp [cumsumAux, ih]

theorem cumsum_length (l : List ℚ) : (cumsum l).length = l.length :=
  cumsumAux_length 0 l

theorem cummaxAux_length (m : ℚ) (l : List ℚ) :
    (cummaxAux m l).length = l.length := by
  induction l generalizing m with
  | nil => rfl
  | cons x xs ih => simp [cummaxAux, ih]

theorem cummax_length (l : List ℚ) : (cummax l).length = l.length := by
  cases l with
  | nil => rfl
  | cons x xs => simp [cummax, cummaxAux_length]

theorem zipWith_getD {α β γ : Type} (f : α → β → γ) (l₁ : List α)
    (l₂ : List β) (i : ℕ) (d₁ : α) (d₂ : β) (h₁ : i < l₁.length)
    (h₂ : i < l₂.length) :
    (List.zipWith f l₁ l₂).getD i (f d₁ d₂) = f (l₁.getD i d₁) (l₂.getD i d₂) := by
  induction l₁ generalizing l₂ i with
  | nil => simp at h₁
  | cons x xs ih =>
    cases l₂ with
    | nil => simp at h₂
    | cons y ys =>
      cases i with
      | zero => rfl
      | succ n =>
        simp only [List.zipWith_cons_cons, List.getD_cons_succ]
        exact ih ys n (by simpa using h₁) (by simpa using h₂)

theorem getD_le_cummaxAux_getD (m : ℚ) (l : List ℚ) (i : ℕ)
    (h : i < l.length) : l.getD i 0 ≤ (cummaxAux m l).getD i 0 := by
  induction l generalizing m i with
  | nil => simp at h
  | cons x xs ih =>
    cases i with
    | zero => simp [cummaxAux, le_max_right]
    | succ n =>
      simp only [cummaxAux, List.getD_cons_succ]
      exact ih (max m x) n (by simpa using h)

theorem getD_le_cummax_getD (l : List ℚ) (i : ℕ) (h : i < l.length) :
    l.getD i 0 ≤ (cummax l).getD i 0 := by
  cases l with
  | nil => simp at h
  | cons x xs =>
    cases i with
    | zero => simp [cummax]
    | succ n =>
      simp only [cummax, List.getD_cons_succ]
      exact getD_le_cummaxAux_getD x xs n (by simpa using h)

theorem mem_alertaCalibracion (b : Batch) (a : AlertMsg) :
    a ∈ alertaCalibracion b ↔
      a = AlertMsg.calibracion ∧
        ∃ f, frecuencia_real b 2 = some f ∧ 3/20 < |f - 1/2| := by
  cases hf : frecuencia_real b 2 with
  | none =>
    have hred : alertaCalibracion b = [] := by
      unfold alertaCalibracion; rw [hf]
    rw [hred]; simp
  | some f =>
    have hred : alertaCalibracion b =
        (if 3/20 < |f - 1/2| then [AlertMsg.calibracion] else []) := by
      unfold alertaCalibracion; rw [hf]
    rw [hred]
    by_cases h : 3/20 < |f - 1/2|
    · rw [if_pos h]
      simp only [List.mem_singleton]
      constructor
      · intro ha; exact ⟨ha, f, rfl, h⟩
      · rintro ⟨ha, -⟩; exact ha
    · rw [if_neg h]
      simp only [List.not_mem_nil, false_iff, not_and]
      rintro - ⟨f2, hf2, hc⟩
      obtain rfl : f = f2 := Option.some_inj.mp hf2
      exact h hc

theorem mem_alertasAdherencia (b : Batch) (a : AlertMsg) :
    a ∈ alertasAdherencia b ↔
      ∃ c v, a = AlertMsg.adherencia c v ∧ (c, some v) ∈ adher b ∧
        v < 7/10 := by
  unfold alertasAdherencia
  simp only [List.mem_filterMap]
  constructor
  · rintro ⟨⟨c1, oc⟩, hp, hfp⟩
    cases oc with
    | none => exact absurd hfp (by simp)
    | some c =>
      have hfp2 : (if c < 7/10 then some (AlertMsg.adherencia c1 c)
          else none) = some a := hfp
      by_cases hlt : c < 7/10
      · rw [if_pos hlt] at hfp2
        exact ⟨c1, c, (Option.some_inj.mp hfp2).symm, hp, hlt⟩
      · rw [if_neg hlt] at hfp2; exact absurd hfp2 (by simp)
  · rintro ⟨c, v, rfl, hmem, hlt⟩
    exact ⟨(c, some v), hmem, by simp [hlt]⟩

theorem mem_alertaExpectativa (b : Batch) (a : AlertMsg) :
    a ∈ alertaExpectativa b ↔
      a = AlertMsg.expectativaNegativa ∧
        ∃ e, expectativa b = some e ∧ e < 0 := by
  cases he : expectativa b with
  | none =>
    have hred : alertaExpectativa b = [] := by
      unfold alertaExpectativa; rw [he]
    rw [hred]; simp
  | some e =>
    have hred : alertaExpectativa b =
        (if e < 0 then [AlertMsg.expectativaNegativa] else []) := by
      unfold alertaExpectativa; rw [he]
    rw [hred]
    by_cases h : e < 0
    · rw [if_pos h]
      simp only [List.mem_singleton]
      constructor
      · intro ha; exact ⟨ha, e, rfl, h⟩
      · rintro ⟨ha, -⟩; exact ha
    · rw [if_neg h]
      simp only [List.not_mem_nil, false_iff, not_and]
      rintro - ⟨e2, he2, hc⟩
      obtain rfl : e = e2 := Option.some_inj.mp he2
      exact h hc

theorem mem_alerts (b : Batch) (a : AlertMsg) :
    a ∈ alerts b ↔
      a ∈ alertaCalibracion b ∨ a ∈ alertasAdherencia b ∨
        a ∈ alertaExpectativa b := by
  simp [alerts, List.mem_append, or_assoc]

theorem map_fst_filterMap_eq_filter (f : String → Option (List Cell))
    (l : List String) :
    ((l.filterMap (fun c => (f c).map (fun cells => (c, cells)))).map
        Prod.fst) = l.filter (fun c => (f c).isSome) := by
  induction l with
  | nil => rfl
  | cons c cs ih =>
    cases h : f c <;>
      simp [List.filterMap_cons, h, List.filter_cons, ih]

theorem adher_map_fst (b : Batch) :
    (adher b).map Prod.fst =
      reconocidas.filter (fun c => (getCol b c).isSome) := by
  have h := map_fst_filterMap_eq_filter (getCol b) reconocidas
  simpa [adher, cols_bool, List.map_map, Function.comp] using h

theorem filterMap_adher_decomp (l : List (String × Option ℚ)) :
    ∃ sub : List (String × ℚ),
      (l.filterMap (fun p =>
        match p.2 with
        | some c =>
            if c < 7/10 then some (AlertMsg.adherencia p.1 c) else none
        | none => none)) =
          sub.map (fun p => AlertMsg.adherencia p.1 p.2) ∧
      List.Sublist (sub.map Prod.fst) (l.map Prod.fst) ∧
      (∀ p ∈ sub, (p.1, some p.2) ∈ l ∧ p.2 < 7/10) := by
  induction l with
  | nil => exact ⟨[], rfl, by simp, by simp⟩
  | cons p ps ih =>
    obtain ⟨sub, he, hs, hm⟩ := ih
    cases hc : p.2 with
    | none =>
      refine ⟨sub, ?_, ?_, ?_⟩
      · simp [List.filterMap_cons, hc, he]
      · simpa using hs.cons p.1
      · intro x hx
        exact ⟨List.mem_cons_of_mem _ (hm x hx).1, (hm x hx).2⟩
    | some c =>
      by_cases hlt : c < 7/10
      · refine ⟨(p.1, c) :: sub, ?_, ?_, ?_⟩
        · simp [List.filterMap_cons, hc, hlt, he]
        · simpa using hs.cons₂ p.1
        · intro x hx
          rcases List.mem_cons.mp hx with h | h
          · subst h
            have hpe : ((p.1, c) : String × ℚ).1 = p.1 := rfl
            refine ⟨?_, hlt⟩
            have : ((p.1 : String), some c) = p := by rw [← hc]
            rw [hpe, this]
            exact List.mem_cons_self p ps
          · exact ⟨List.mem_cons_of_mem _ (hm x h).1, (hm x h).2⟩
      · refine ⟨sub, ?_, ?_, ?_⟩
        · simp [List.filterMap_cons, hc, hlt, he]
        · simpa using hs.cons p.1
        · intro x hx
          exact ⟨List.mem_cons_of_mem _ (hm x hx).1, (hm x hx).2⟩

/-! The claims. -/

/-- C1: the claim says the equity sequence is built by first ordering the
trades by exit_time ascending and cumulating the weighted returns in that
order.  The source (line 71) instead cumulates the weighted returns in
the ORIGINAL dataframe order and then attaches the SORTED exit dates as
index, so whenever the rows are not already in exit-time order the values
are paired with the wrong dates: on bDesorden (a winning trade closing on
day 2 listed before a losing trade closing on day 1) the code shows
equity 1/10 at day 1, while ordering by exit time first gives -1/20 at
day 1.  The code contradicts the spec and its own glossary, which states
the equity curve is ordered by closing date. -/
theorem claim_C1_bug :
    serie_equity bDesorden = [(1, 1/10), (2, 1/20)] ∧
    equitySpec bDesorden = [(1, -1/20), (2, 1/20)] ∧
    serie_equity bDesorden ≠ equitySpec bDesorden ∧
    (serie_equity bDesorden).length = bDesorden.trades.length := by
  refine ⟨?_, ?_, ?_, ?_⟩ <;>
    norm_num +decide [serie_equity, equitySpec, fechasOrdenadas,
      tradesOrdenados, insertNat, insertTrade, equityVals, cumsum,
      cumsumAux, pesos, retorno, toMinusculas, tamanioEf, bDesorden,
      tGan, tPer]

/-- C2, counterexample: the claim says a batch with zero wins yields
expectancy = mean_loss.  On bSinGanancias (one losing trade) the source
computes gan_media as the mean of an empty selection, which is NaN, and
0 * NaN + 1 * per_media is NaN: expectancy is undefined, not the mean
loss -1/20. -/
theorem claim_C2_counterexample :
    per_media bSinGanancias = some (-1/20) ∧
    tasa_exito bSinGanancias = some 0 ∧
    expectativa bSinGanancias = none ∧
    expectativa bSinGanancias ≠ per_media bSinGanancias := by
  refine ⟨?_, ?_, ?_, ?_⟩ <;>
    norm_num +decide [expectativa, tasa_exito, gan_media, per_media,
      resultados, resultado, retornos, retorno, toMinusculas, mean,
      bSinGanancias, tPer]

/-- C2, amended: on a non-empty batch the expectancy equals
win_rate * mean_gain + (1 - win_rate) * mean_loss whenever BOTH means
are defined; when either subset is empty its NaN mean propagates and
expectancy is undefined even though the corresponding weight is 0. -/
theorem claim_C2_amended (b : Batch) (hb : validPrices b)
    (hne : b.trades ≠ []) :
    (∀ g l, gan_media b = some g → per_media b = some l →
      ∃ w, tasa_exito b = some w ∧
        expectativa b = some (w * g + (1 - w) * l)) ∧
    (gan_media b = none → expectativa b = none) ∧
    (per_media b = none → expectativa b = none) := by
  have hres : resultados b ≠ [] := by
    simpa [resultados] using hne
  have hw : tasa_exito b =
      some ((resultados b).sum / (resultados b).length) :=
    mean_eq_some _ hres
  refine ⟨?_, ?_, ?_⟩
  · intro g l hg hl
    refine ⟨(resultados b).sum / (resultados b).length, hw, ?_⟩
    simp [expectativa, hw, hg, hl]
  · intro hg
    simp [expectativa, hg]
  · intro hl
    cases hg : gan_media b <;> simp [expectativa, hg, hl]

/-- C2, witness of the amended theorem at bDesorden (one win, one
loss). -/
theorem claim_C2_amended_witness :
    ∃ w, tasa_exito bDesorden = some w ∧
      expectativa bDesorden = some (w * (1/10) + (1 - w) * (-1/20)) :=
  (claim_C2_amended bDesorden (by decide) (by decide)).1 (1/10) (-1/20)
    (by norm_num +decide [gan_media, retornos, retorno, toMinusculas,
      mean, bDesorden, tGan, tPer])
    (by norm_num +decide [per_media, retornos, retorno, toMinusculas,
      mean, bDesorden, tGan, tPer])

/-- C3: the claim says a zero-trade batch makes the engine signal a
distinct EmptyBatchError and produce no summary statistics and no alerts.
The source has no such error: on the empty batch every summary statistic
evaluates to NaN (modelled none), every calibration bin is NaN, and the
alert stage runs normally and prints the success line, i.e. NaN-valued
aggregates flow downstream. -/
theorem claim_C3_bug :
    tasa_exito bVacio = none ∧ gan_media bVacio = none ∧
    per_media bVacio = none ∧ expectativa bVacio = none ∧
    (∀ i : Fin 5, frecuencia_real bVacio i = none) ∧
    salida bVacio = [Salida.exito] := by
  refine ⟨?_, ?_, ?_, ?_, fun i => ?_, ?_⟩ <;>
    norm_num +decide [tasa_exito, gan_media, per_media, expectativa,
      resultados, retornos, frecuencia_real, binTrades, mean, salida,
      alerts, adher, cols_bool, reconocidas, getCol, bVacio]

/-- C4: the claim says a zero entry price makes the return computation
fail with a DataError.  The source (lines 56-59) has no guard and no
error value: the division produces a non-finite float silently (modelled
none), for tEntradaCero and for every trade whose entry price is 0. -/
theorem claim_C4_bug :
    calcular_retorno tEntradaCero = none ∧
    (∀ fs lado ps pr, calcular_retorno
      { fecha_salida := fs, lado := lado, precio_entrada := 0,
        precio_salida := ps, probabilidad_asignada := pr } = none) := by
  exact ⟨rfl, fun fs lado ps pr => rfl⟩

/-- C8: the claim says a batch in which the optional slippage fields are
entirely absent yields an empty sequence and no error.  The source (line
139) calls dropna with a subset naming both slippage columns, which
raises KeyError when a named column does not exist in the dataframe;
when the columns do exist the output is actual minus estimated over the
rows with both cells present, in original order, as the claim states. -/
theorem claim_C8_bug :
    slip_vals bSinColsSlip = Except.error "KeyError" ∧
    slip_vals bSlip = Except.ok [3, -3] := by
  refine ⟨rfl, ?_⟩
  norm_num +decide [slip_vals, bSlip, List.filterMap_cons]

/-- C9, counterexample: the claim says every defined drawdown value is
at most 0.  On bPerdidas (two losing trades) the running equity peak is
-1/10, negative, and the second drawdown value is (-3/10 - -1/10) /
(-1/10) = 2 > 0 while being defined. -/
theorem claim_C9_counterexample :
    equityVals bPerdidas = [-1/10, -3/10] ∧
    cummax (equityVals bPerdidas) = [-1/10, -1/10] ∧
    dd bPerdidas = [some 0, some 2] ∧
    ¬ (∀ q : ℚ, some q ∈ dd bPerdidas → q ≤ 0) := by
  have h1 : equityVals bPerdidas = [-1/10, -3/10] := by
    norm_num +decide [equityVals, cumsum, cumsumAux, pesos, retorno,
      toMinusculas, tamanioEf, bPerdidas]
  have h2 : cummax (equityVals bPerdidas) = [-1/10, -1/10] := by
    rw [h1]; norm_num [cummax, cummaxAux]
  have h3 : dd bPerdidas = [some 0, some 2] := by
    simp only [dd]; rw [h2, h1]; norm_num
  refine ⟨h1, h2, h3, fun h => ?_⟩
  have := h 2 (by rw [h3]; simp)
  norm_num at this

/-- C10, counterexample: the claim says missing OR NON-BOOLEAN entries
are excluded from a control column's mean.  pandas Series.mean only
skips NaN: on bControl, whose column holds true, false and the numeric
cell 2, the source averages (1 + 0 + 2) / 3 = 1, while excluding the
non-boolean entry as the claim states would give (1 + 0) / 2 = 1/2. -/
theorem claim_C10_counterexample :
    adher bControl = [("regla_riesgo_ok", some 1)] ∧
    adherSpec bControl = [("regla_riesgo_ok", some (1/2))] ∧
    adher bControl ≠ adherSpec bControl := by
  refine ⟨?_, ?_, ?_⟩ <;>
    norm_num +decide [adher, adherSpec, cols_bool, reconocidas, getCol,
      colMean, colMeanSpec, cellVal, mean, bControl, List.filterMap_cons]

/-- C5: for a trade with positive entry price the computed return is the
long formula exactly when the side string, lowercased, equals the
recognized value, the short formula for every other side string, and the
stored win flag is 1 exactly when the return is strictly positive (a zero
return counts as a loss). -/
theorem claim_C5 (t : Trade) (hp : 0 < t.precio_entrada) :
    calcular_retorno t = some (retorno t) ∧
    (toMinusculas t.lado = "largo" →
      retorno t = (t.precio_salida - t.precio_entrada) / t.precio_entrada) ∧
    (toMinusculas t.lado ≠ "largo" →
      retorno t = (t.precio_entrada - t.precio_salida) / t.precio_entrada) ∧
    (resultado t = 1 ↔ 0 < retorno t) ∧
    (retorno t = 0 → resultado t = 0) := by
  refine ⟨?_, ?_, ?_, ?_, ?_⟩
  · simp [calcular_retorno, hp.ne']
  · intro h; simp [retorno, h]
  · intro h; simp [retorno, h]
  · unfold resultado
    split_ifs with h <;> simp [h]
  · intro h
    simp [resultado, h]

/-- C5, witness: an uppercase Largo trade with entry 100, exit 110. -/
theorem claim_C5_witness :
    calcular_retorno tLargo = some (retorno tLargo) ∧
    retorno tLargo = (110 - 100) / 100 :=
  ⟨(claim_C5 tLargo (by norm_num [tLargo])).1,
   by
    have h := (claim_C5 tLargo (by norm_num [tLargo])).2.1 (by decide)
    simpa [tLargo] using h⟩

/-- C6: the calibration analyzer always has exactly 5 bins; the clamped
probability lies in [0,1] and is assigned by the half-open intervals
with the last bin closed at 1; the per-bin frequency is the mean of the
win flags over the bin's trades and is undefined exactly on an empty
bin; an undefined middle-bin frequency never yields the calibration
alert. -/
theorem claim_C6 (b : Batch) (hb : validPrices b) :
    centros.length = 5 ∧
    (∀ p : ℚ, 0 ≤ clip01 p ∧ clip01 p ≤ 1) ∧
    (∀ q : ℚ, 0 ≤ q → q ≤ 1 →
      ((binIndex q = 0 ↔ q < 1/5) ∧
       (binIndex q = 1 ↔ 1/5 ≤ q ∧ q < 2/5) ∧
       (binIndex q = 2 ↔ 2/5 ≤ q ∧ q < 3/5) ∧
       (binIndex q = 3 ↔ 3/5 ≤ q ∧ q < 4/5) ∧
       (binIndex q = 4 ↔ 4/5 ≤ q ∧ q ≤ 1))) ∧
    (∀ i : Fin 5,
      (frecuencia_real b i = none ↔ binTrades b i = []) ∧
      (∀ f, frecuencia_real b i = some f →
        f = ((binTrades b i).map resultado).sum /
          ((binTrades b i).map resultado).length)) ∧
    (frecuencia_real b 2 = none → AlertMsg.calibracion ∉ alerts b) := by
  refine ⟨rfl, ?_, ?_, ?_, ?_⟩
  · intro p
    exact ⟨le_max_left _ _, max_le (by norm_num) (min_le_left _ _)⟩
  · intro q h0 h1
    unfold binIndex
    split_ifs with hA hB hC hD <;>
      refine ⟨?_, ?_, ?_, ?_, ?_⟩ <;>
      constructor <;>
      intro hx <;>
      first
        | rfl
        | (exact absurd hx (by decide))
        | (rcases hx with ⟨hx1, hx2⟩; exfalso; linarith)
        | linarith
        | (exact ⟨by linarith, by linarith⟩)
  · intro i
    constructor
    · simp [frecuencia_real, mean_eq_none_iff]
    · intro f hf
      simp only [frecuencia_real, mean] at hf
      split_ifs at hf with h
      exact (Option.some_inj.mp hf).symm
  · intro h hmem
    rcases (mem_alerts b _).mp hmem with hc | hc | hc
    · obtain ⟨-, f, hf, -⟩ := (mem_alertaCalibracion b _).mp hc
      rw [h] at hf; cases hf
    · obtain ⟨c, v, heq, -, -⟩ := (mem_alertasAdherencia b _).mp hc
      cases heq
    · obtain ⟨heq, -⟩ := (mem_alertaExpectativa b _).mp hc
      cases heq

/-- C6, witness at a batch of three probability-1/2 winners. -/
theorem claim_C6_witness :
    centros.length = 5 ∧ 0 ≤ clip01 (1/2) ∧ clip01 (1/2) ≤ 1 :=
  ⟨(claim_C6 bGanadoras (by decide)).1,
   ((claim_C6 bGanadoras (by decide)).2.1 (1/2)).1,
   ((claim_C6 bGanadoras (by decide)).2.1 (1/2)).2⟩

/-- C7: the alert engine fires the calibration rule exactly when the
middle-bin frequency is defined and more than 3/20 away from 1/2, one
adherence alert per present control column with compliance below 7/10,
and the expectancy rule exactly when the expectancy is defined and
negative; the emitted list is the calibration segment, then the
adherence segment whose columns follow the declared order of the present
columns, then the expectancy segment; and when nothing fires the output
is the single success line, never empty output. -/
theorem claim_C7 (b : Batch) (hb : validPrices b) :
    (AlertMsg.calibracion ∈ alerts b ↔
      ∃ f, frecuencia_real b 2 = some f ∧ 3/20 < |f - 1/2|) ∧
    (∀ c v, AlertMsg.adherencia c v ∈ alerts b ↔
      (c, some v) ∈ adher b ∧ v < 7/10) ∧
    (AlertMsg.expectativaNegativa ∈ alerts b ↔
      ∃ e, expectativa b = some e ∧ e < 0) ∧
    (∃ la lb lc : List AlertMsg,
      alerts b = la ++ lb ++ lc ∧
      (∀ a ∈ la, a = AlertMsg.calibracion) ∧
      (∃ sub : List (String × ℚ),
        lb = sub.map (fun p => AlertMsg.adherencia p.1 p.2) ∧
        List.Sublist (sub.map Prod.fst)
          (reconocidas.filter (fun c => (getCol b c).isSome)) ∧
        (∀ p ∈ sub, (p.1, some p.2) ∈ adher b ∧ p.2 < 7/10)) ∧
      (∀ a ∈ lc, a = AlertMsg.expectativaNegativa)) ∧
    (alerts b = [] → salida b = [Salida.exito]) ∧
    (alerts b ≠ [] → salida b = (alerts b).map Salida.warning) ∧
    salida b ≠ [] := by
  refine ⟨?_, ?_, ?_, ?_, ?_, ?_, ?_⟩
  · constructor
    · intro hmem
      rcases (mem_alerts b _).mp hmem with hc | hc | hc
      · exact ((mem_alertaCalibracion b _).mp hc).2
      · obtain ⟨c, v, heq, -, -⟩ := (mem_alertasAdherencia b _).mp hc
        cases heq
      · obtain ⟨heq, -⟩ := (mem_alertaExpectativa b _).mp hc
        cases heq
    · intro hex
      exact (mem_alerts b _).mpr
        (Or.inl ((mem_alertaCalibracion b _).mpr ⟨rfl, hex⟩))
  · intro c v
    constructor
    · intro hmem
      rcases (mem_alerts b _).mp hmem with hc | hc | hc
      · obtain ⟨heq, -⟩ := (mem_alertaCalibracion b _).mp hc
        cases heq
      · obtain ⟨c2, v2, heq, hm2, hl2⟩ := (mem_alertasAdherencia b _).mp hc
        obtain ⟨rfl, rfl⟩ : c = c2 ∧ v = v2 := by
          injection heq with h1 h2; exact ⟨h1, h2⟩
        exact ⟨hm2, hl2⟩
      · obtain ⟨heq, -⟩ := (mem_alertaExpectativa b _).mp hc
        cases heq
    · intro hm
      exact (mem_alerts b _).mpr
        (Or.inr (Or.inl ((mem_alertasAdherencia b _).mpr
          ⟨c, v, rfl, hm.1, hm.2⟩)))
  · constructor
    · intro hmem
      rcases (mem_alerts b _).mp hmem with hc | hc | hc
      · obtain ⟨heq, -⟩ := (mem_alertaCalibracion b _).mp hc
        cases heq
      · obtain ⟨c2, v2, heq, -, -⟩ := (mem_alertasAdherencia b _).mp hc
        cases heq
      · exact ((mem_alertaExpectativa b _).mp hc).2
    · intro hex
      exact (mem_alerts b _).mpr
        (Or.inr (Or.inr ((mem_alertaExpectativa b _).mpr ⟨rfl, hex⟩)))
  · refine ⟨alertaCalibracion b, alertasAdherencia b, alertaExpectativa b,
      rfl, ?_, ?_, ?_⟩
    · intro a ha
      exact ((mem_alertaCalibracion b a).mp ha).1
    · obtain ⟨sub, he, hs, hm⟩ := filterMap_adher_decomp (adher b)
      refine ⟨sub, he, ?_, hm⟩
      rw [← adher_map_fst b]
      exact hs
    · intro a ha
      exact ((mem_alertaExpectativa b a).mp ha).1
  · intro h; simp [salida, h]
  · intro h; simp [salida, h]
  · by_cases h : alerts b = [] <;> simp [salida, h]

/-- C7, witness: three probability-1/2 winners make the middle-bin
frequency 1 and fire the calibration alert; the output is never
empty. -/
theorem claim_C7_witness :
    AlertMsg.calibracion ∈ alerts bGanadoras ∧ salida bGanadoras ≠ [] :=
  ⟨(claim_C7 bGanadoras (by decide)).1.mpr
    ⟨1,
     by
      norm_num +decide [frecuencia_real, binTrades, binIndex, clip01,
        resultado, retorno, toMinusculas, mean, bGanadoras,
        List.filter_cons, min_def, max_def],
     by
      rw [abs_of_pos (show (0:ℚ) < 1 - 1/2 by norm_num)]
      norm_num⟩,
   (claim_C7 bGanadoras (by decide)).2.2.2.2.2.2⟩

/-- C9, amended: each drawdown value equals (equity minus running peak)
over the running peak, is undefined (none, no exception) exactly where
the running peak is 0, and is at most 0 wherever the running peak is
POSITIVE; when the running peak is negative, which the claim ignores, a
defined drawdown can be positive (claim_C9_counterexample). -/
theorem claim_C9_amended (b : Batch) (hb : validPrices b) (i : ℕ)
    (hi : i < (equityVals b).length) :
    (dd b).length = (equityVals b).length ∧
    (dd b).getD i none =
      (if (cummax (equityVals b)).getD i 0 = 0 then none
       else some (((equityVals b).getD i 0 -
          (cummax (equityVals b)).getD i 0) /
          (cummax (equityVals b)).getD i 0)) ∧
    ((cummax (equityVals b)).getD i 0 = 0 → (dd b).getD i none = none) ∧
    (0 < (cummax (equityVals b)).getD i 0 →
      ∀ q, (dd b).getD i none = some q → q ≤ 0) := by
  have hcl : (cummax (equityVals b)).length = (equityVals b).length :=
    cummax_length (equityVals b)
  have hlen : (dd b).length = (equityVals b).length := by
    simp [dd, hcl]
  have hget : (dd b).getD i none =
      (if (cummax (equityVals b)).getD i 0 = 0 then none
       else some (((equityVals b).getD i 0 -
          (cummax (equityVals b)).getD i 0) /
          (cummax (equityVals b)).getD i 0)) := by
    have h2 := zipWith_getD
      (fun e p => if p = 0 then (none : Option ℚ) else some ((e - p) / p))
      (equityVals b) (cummax (equityVals b)) i 0 0 hi (by rw [hcl]; exact hi)
    simpa [dd] using h2
  refine ⟨hlen, hget, ?_, ?_⟩
  · intro h0; rw [hget, if_pos h0]
  · intro hpos q hq
    rw [hget, if_neg (ne_of_gt hpos)] at hq
    obtain rfl := (Option.some_inj.mp hq).symm
    have hle : (equityVals b).getD i 0 ≤ (cummax (equityVals b)).getD i 0 :=
      getD_le_cummax_getD (equityVals b) i hi
    have hnum : (equityVals b).getD i 0 - (cummax (equityVals b)).getD i 0 ≤ 0 := by
      linarith
    exact div_nonpos_of_nonpos_of_nonneg hnum (le_of_lt hpos)

/-- C9, witness of the amended theorem at the all-winning batch, whose
running peak is positive at position 1. -/
theorem claim_C9_amended_witness :
    (dd bGanadoras).getD 1 none =
      (if (cummax (equityVals bGanadoras)).getD 1 0 = 0 then none
       else some (((equityVals bGanadoras).getD 1 0 -
          (cummax (equityVals bGanadoras)).getD 1 0) /
          (cummax (equityVals bGanadoras)).getD 1 0)) :=
  (claim_C9_amended bGanadoras (by decide) 1
    (by simp [equityVals, cumsum, cumsumAux_length, pesos, bGanadoras])).2.1

/-- C10, amended: the adherence output lists exactly the recognized
control columns present in the input, in declaration order, each with
the pandas mean of its column, in which missing cells are excluded (not
counted as zero) but a NON-BOOLEAN NUMERIC cell is included at its
numeric value (claim_C10_counterexample shows the exclusion the claim
states does not hold for it). -/
theorem claim_C10_amended (b : Batch) :
    (adher b).map Prod.fst =
      reconocidas.filter (fun c => (getCol b c).isSome) ∧
    (∀ c q, (c, q) ∈ adher b →
      ∃ cells, getCol b c = some cells ∧ q = colMean cells) ∧
    (∀ cells, colMean (Cell.missing :: cells) = colMean cells) ∧
    (∀ cells v, colMean (Cell.booleano v :: cells) =
      mean ((if v then (1:ℚ) else 0) :: cells.filterMap cellVal)) ∧
    (∀ cells q, colMean (Cell.numero q :: cells) =
      mean (q :: cells.filterMap cellVal)) := by
  refine ⟨adher_map_fst b, ?_, ?_, ?_, ?_⟩
  · intro c q hm
    simp only [adher, List.mem_map] at hm
    obtain ⟨⟨c1, cells1⟩, hp, heq⟩ := hm
    have h1 : c1 = c := congrArg Prod.fst heq
    have h2 : colMean cells1 = q := congrArg Prod.snd heq
    simp only [cols_bool, List.mem_filterMap] at hp
    obtain ⟨c2, -, hc2⟩ := hp
    cases hg : getCol b c2 with
    | none => rw [hg] at hc2; exact absurd hc2 (by simp)
    | some cells2 =>
      rw [hg] at hc2
      have h3 : (c2, cells2) = (c1, cells1) := Option.some_inj.mp hc2
      have h4 : c2 = c1 := congrArg Prod.fst h3
      have h5 : cells2 = cells1 := congrArg Prod.snd h3
      refine ⟨cells1, ?_, h2.symm⟩
      rw [← h1, ← h4, hg, h5]
  · intro cells; simp [colMean, List.filterMap_cons, cellVal]
  · intro cells v; simp [colMean, List.filterMap_cons, cellVal]
  · intro cells q; simp [colMean, List.filterMap_cons, cellVal]

/-- C10, witness of the amended theorem at the batch with one present
control column. -/
theorem claim_C10_amended_witness :
    (adher bControl).map Prod.fst =
      reconocidas.filter (fun c => (getCol bControl c).isSome) :=
  (claim_C10_amended bControl).1

end Metricas
